import Mathlib

/-!
Shallow embedding of `webapp/api/api/solr_utils.py` and of the schema migration
`webapp/api/api/migrations/0083_metaannotation_predicted_meta_task_value_and_more.py`
from the MedCATtrainer repository, together with theorems settling the frozen
claims about them.

Modelling conventions:
- Every HTTP call made by the Python code is modelled by passing the remote
  service's (already JSON-parsed) response as an explicit input, and every
  side effect (HTTP request issued, database lookup, log line) is recorded in
  an explicit effect / log trace returned by the function.
- The process-wide mutable dictionary SOLR_INDEX_SCHEMA is modelled as an
  association list threaded through the functions that read or write it.
- Python exceptions raised to the caller and Django HttpResponseServerError
  results are modelled by the `SolrOutcome` type.
- Python string operations (strip, replace, split, re.sub, int) are modelled
  by executable character-list functions faithful to CPython semantics on the
  ASCII range handled by this code.
-/

/-! ## Python string primitives -/

/-- Characters stripped by Python str.strip() (ASCII whitespace). -/
def isPySpace (c : Char) : Bool :=
  c == ' ' || c == '\t' || c == '\n' || c == '\r' || c == '\x0b' || c == '\x0c'

/-- Python str.strip(): drop leading and trailing whitespace. -/
def pyStrip (s : String) : String :=
  String.mk (((s.data.dropWhile isPySpace).reverse.dropWhile isPySpace).reverse)

/-- Fuel-indexed literal substring replacement, Python str.replace semantics
(leftmost, non-overlapping).  The fuel is an upper bound on the number of
characters still to scan; callers pass the length of the input, which always
suffices because each step consumes at least one character. -/
def pyReplaceAux (pat rep : List Char) : Nat → List Char → List Char
  | _, [] => []
  | 0, l => l
  | fuel + 1, c :: rest =>
    if pat ≠ [] ∧ pat.isPrefixOf (c :: rest) then
      rep ++ pyReplaceAux pat rep fuel ((c :: rest).drop pat.length)
    else
      c :: pyReplaceAux pat rep fuel rest

/-- Python str.replace with a literal (non-empty) pattern. -/
def pyReplace (s pat rep : String) : String :=
  String.mk (pyReplaceAux pat.data rep.data s.data.length s.data)

/-- Python str.split(' '): split on every single space, keeping empty pieces;
''.split(' ') = ['']. -/
def pySplitSpaceAux : List Char → List (List Char)
  | [] => [[]]
  | c :: rest =>
    match pySplitSpaceAux rest with
    | [] => [[c]]
    | g :: gs => if c == ' ' then [] :: g :: gs else (c :: g) :: gs

/-- Python str.split(' ') on strings. -/
def pySplitSpace (s : String) : List String :=
  (pySplitSpaceAux s.data).map String.mk

/-- Fuel-indexed Python str.split(sep) with a literal non-empty separator. -/
def pySplitLitAux (sep : List Char) : Nat → List Char → List (List Char)
  | _, [] => [[]]
  | 0, l => [l]
  | fuel + 1, c :: rest =>
    if sep ≠ [] ∧ sep.isPrefixOf (c :: rest) then
      [] :: pySplitLitAux sep fuel ((c :: rest).drop sep.length)
    else
      match pySplitLitAux sep fuel rest with
      | [] => [[c]]
      | g :: gs => (c :: g) :: gs

/-- Python str.split(sep) on strings. -/
def pySplit (s sep : String) : List String :=
  (pySplitLitAux sep.data s.data.length s.data).map String.mk

/-- Python s[:-1]: drop the last character. -/
def pyDropLast (s : String) : String := String.mk s.data.dropLast

/-- Digit run to a natural number, Python int() digit semantics
(underscore grouping is not modelled; the inputs this code feeds to int()
never contain underscores). -/
def digitsToNat (cs : List Char) : Option Nat :=
  if cs = [] ∨ ¬ cs.all Char.isDigit then none
  else some (cs.foldl (fun a c => a * 10 + (c.toNat - 48)) 0)

/-- Python int(s): strip whitespace, optional sign, at least one digit;
returns none exactly when int() raises ValueError. -/
def pyInt (s : String) : Option Int :=
  match (pyStrip s).data with
  | '+' :: rest => (digitsToNat rest).map Int.ofNat
  | '-' :: rest => (digitsToNat rest).map (fun n => -(n : Int))
  | cs => (digitsToNat cs).map Int.ofNat

/-! ## The regular expression sub in _concept_dct

The source computes re.sub(r'\(\[w+s-class\]+\)', '', name).strip() (a
parenthesized run of word characters, plus signs and whitespace is deleted,
wherever it occurs).  The scan below is equivalent to CPython's left-to-right
non-overlapping matching of that pattern on ASCII text: a match is an opening
parenthesis, a maximal non-empty run of class characters, and a closing
parenthesis (the class excludes both parentheses, so no backtracking can
produce any other match). -/

/-- Word character of the regex class (ASCII fragment of Python \w). -/
def isReWordChar (c : Char) : Bool := c.isAlphanum || c == '_'

/-- Membership in the bracket class of the pattern. -/
def isParenClassChar (c : Char) : Bool := isReWordChar c || c == '+' || isPySpace c

/-- One left-to-right scan deleting every parenthesized class run.  The second
argument is `some pend` while inside a candidate match, holding the class
characters seen since the opening parenthesis, in reverse. -/
def reSubParenAux : List Char → Option (List Char) → List Char
  | [], none => []
  | [], some pend => '(' :: pend.reverse
  | c :: rest, none =>
    if c == '(' then reSubParenAux rest (some [])
    else c :: reSubParenAux rest none
  | c :: rest, some pend =>
    if c == ')' then
      if pend.isEmpty then '(' :: ')' :: reSubParenAux rest none
      else reSubParenAux rest none
    else if c == '(' then ('(' :: pend.reverse) ++ reSubParenAux rest (some [])
    else if isParenClassChar c then reSubParenAux rest (some (c :: pend))
    else ('(' :: pend.reverse) ++ (c :: reSubParenAux rest none)

/-- The full name normalization applied by _concept_dct to the display name:
delete every parenthesized class run, then strip surrounding whitespace. -/
def normalized_name (s : String) : String :=
  pyStrip (String.mk (reSubParenAux s.data none))

/-- Name normalization as the claim words it: remove a parenthesized word
suffix (a trailing parenthesized class run) and strip whitespace.  Used only
to compare the claim's wording with what the code computes. -/
def specSuffixName (s : String) : String :=
  let t := pyStrip s
  match t.data.reverse with
  | ')' :: rest =>
    match rest.takeWhile isParenClassChar, rest.dropWhile isParenClassChar with
    | _ :: _, '(' :: frontRev => pyStrip (String.mk frontRev.reverse)
    | _, _ => t
  | _ => t

/-! ## Concept dictionary (medcat CDB) model

Only the parts of the CDB that solr_utils reads are modelled: cui2names (an
insertion-ordered dict, as a key/value list), cui2type_ids, get_name, and the
addl_info sub-dicts cui2description, cui2original_names, cui2icd10, cui2opcs4.
An absent addl_info table and an absent cui key both map to `none`, mirroring
the chained .get(...) defaults in the source. -/

/-- One entry of an icd10/opcs4 classification list.  A field is `none` when
the Python dict lacks that key, in which case the list comprehension in
_concept_dct raises KeyError and the classification string is not added. -/
structure CodeRec where
  code : Option String
  name : Option String
deriving DecidableEq, Repr

structure CDB where
  cui2names : List (String × List String)
  cui2type_ids : String → List String
  get_name : String → String
  cui2description : String → Option String
  cui2original_names : String → Option (List String)
  cui2icd10 : String → Option (List CodeRec)
  cui2opcs4 : String → Option (List CodeRec)

/-- Format one code entry; none when a key is missing (the KeyError case). -/
def fmtCode (c : CodeRec) : Option String :=
  match c.code, c.name with
  | some cd, some nm => some (cd ++ " : " ++ nm)
  | _, _ => none

/-- The ', '.join of the per-code format strings; none when any entry raises,
matching the all-or-nothing try/except around the list comprehension. -/
def joinCodes (codes : List CodeRec) : Option String :=
  (codes.mapM fmtCode).map (String.intercalate ", ")

/-- Field value in a concept document. -/
inductive DocVal
  | s (v : String)
  | l (v : List String)
deriving DecidableEq, Repr

/-- A concept document: the ad hoc JSON object built by _concept_dct, as an
ordered field list. -/
abbrev Doc := List (String × DocVal)

/-- Model of _concept_dct: builds the document for one cui from the CDB's
tables.  The function is pure, so the CDB is left untouched by construction.
The optional icd10/opcs4 fields are appended only when the addl_info entry
exists and every record in it carries both a code and a name key. -/
def _concept_dct (cui : String) (cdb : CDB) : Doc :=
  [("cui", DocVal.s cui),
   ("pretty_name", DocVal.s (cdb.get_name cui)),
   ("name", DocVal.s (normalized_name (cdb.get_name cui))),
   ("type_ids", DocVal.l (cdb.cui2type_ids cui)),
   ("desc", DocVal.s ((cdb.cui2description cui).getD "")),
   ("synonyms", DocVal.l ((cdb.cui2original_names cui).getD []))]
  ++ (match cdb.cui2icd10 cui with
      | none => []
      | some codes =>
        match joinCodes codes with
        | some str => [("icd10", DocVal.s str)]
        | none => [])
  ++ (match cdb.cui2opcs4 cui with
      | none => []
      | some codes =>
        match joinCodes codes with
        | some str => [("opcs4", DocVal.s str)]
        | none => [])

/-- Concrete CDB whose display name has a parenthesized group in the middle;
used to separate the code's behaviour from the claim's wording. -/
def cdbMid : CDB where
  cui2names := [("C1", ["heart failure"])]
  cui2type_ids := fun _ => ["T1"]
  get_name := fun _ => "Heart (organ) failure"
  cui2description := fun _ => none
  cui2original_names := fun _ => none
  cui2icd10 := fun _ => none
  cui2opcs4 := fun _ => none

/-! ## Remote responses, outcomes, effects, logs -/

/-- How a solr_utils function finishes: normal return, a Django
HttpResponseServerError handed back to the web framework, or a Python
exception raised (and logged) to the caller. -/
inductive SolrOutcome (α : Type)
  | ok (a : α)
  | serverError (msg : String)
  | raised (msg : String)
deriving DecidableEq, Repr

/-- Whether a detected failure was surfaced to the caller, either as a raised
exception or as a server-error HTTP response. -/
def SolrOutcome.surfaced : SolrOutcome α → Bool
  | .ok _ => false
  | .serverError _ => true
  | .raised _ => true

/-- A log line emitted through the module logger. -/
inductive LogEntry
  | info (msg : String)
  | warning (msg : String)
  | error (msg : String)
deriving DecidableEq, Repr

/-- A raw HTTP response: status code, raw body text, and the body's parsed
json error field when the body parses as json carrying one (`_solr_error_response`
reads only that field). -/
structure HttpResp where
  status : Nat
  text : String
  errorBody : Option String
deriving DecidableEq, Repr

/-- Response to the admin collections LIST call, with the body already parsed
to its collections field (the code parses it only after a status check, except
in ensure_concept_searchable, which parses it on the non-200 branch). -/
structure ListResp where
  status : Nat
  collections : List String
deriving DecidableEq, Repr

/-- One document as returned by a solr select: every stored field is
list-valued in solr, and the optional classification fields may be missing. -/
structure SolrDoc where
  cui : List String
  pretty_name : List String
  type_ids : List String
  synonyms : List String
  icd10 : Option (List String)
  opcs4 : Option (List String)
deriving DecidableEq, Repr

/-- Response to a select call as search_collection sees it after json.loads:
the status code (which search_collection never inspects), whether the parsed
body carries an error key, and the response docs otherwise. -/
structure SelectResp where
  status : Nat
  hasError : Bool
  docs : List SolrDoc
deriving DecidableEq, Repr

/-- Payload of one POST to a collection's update endpoint: import_all_concepts
sends a list of documents, ensure_concept_searchable sends one bare document. -/
inductive UploadData
  | docs (l : List Doc)
  | single (d : Doc)
deriving DecidableEq, Repr

/-- An outward-visible side effect of a solr_utils function: one HTTP request
or one Django ORM lookup, in program order. -/
inductive Effect
  | dbGet (id : String)
  | httpGetSchema (collection : String)
  | httpSelect (collection : String) (queryStr : String)
  | listCollections
  | deleteCollection (collection : String)
  | createCollection (collection : String)
  | upload (collection : String) (data : UploadData) (commit : Bool)
  | selectCount (collection : String)
deriving DecidableEq, Repr

/-! ## The SOLR_INDEX_SCHEMA cache

The process-wide dict SOLR_INDEX_SCHEMA maps a collection name to the dict
of cached schema field types for that collection (the code stores only the
cui field's type).  It is modelled as an insertion-ordered association list
threaded explicitly through the functions that touch it; dict assignment
overwrites in place. -/

abbrev SolrIndexSchema := List (String × List (String × String))

/-- Python dict assignment on the association list: overwrite in place when
the key exists, append otherwise. -/
def cacheStore (c : SolrIndexSchema) (k : String) (v : List (String × String)) :
    SolrIndexSchema :=
  match c with
  | [] => [(k, v)]
  | (k', v') :: rest => if k' == k then (k, v) :: rest else (k', v') :: cacheStore rest k v

/-- Model of _cache_solr_collection_schema_types: one HTTP GET of the
collection's schema (the oracle `schemaO` gives the cui field's type found in
the schema fields), then store the singleton dict for that collection.  The
function never inspects the response status code. -/
def _cache_solr_collection_schema_types (schemaO : String → String)
    (cache : SolrIndexSchema) (collection : String) :
    List Effect × SolrIndexSchema :=
  ([Effect.httpGetSchema collection],
   cacheStore cache collection [("cui", schemaO collection)])

/-! ## collections_available -/

/-- The Response/HttpResponseServerError value returned by
collections_available: the per-cdb results mapping built when cdbs is
nonempty, the collection-listing mapping built when it is empty, or the
generic server error. -/
inductive CAOutcome
  | results1 (m : List (String × Bool))
  | results2 (m : List (String × Bool × String))
  | serverError (msg : String)
deriving DecidableEq, Repr

/-- Model of collections_available: one LIST call; on status 200 the schema of
every listed collection is (re)fetched and cached and the results mapping is
built, otherwise a generic server error is returned and the cache is left
alone.  `cdbs` keeps the caller-supplied ids as strings, as the web layer
hands them over. -/
def collections_available (schemaO : String → String) (cache : SolrIndexSchema)
    (cdbs : List String) (resp : ListResp) :
    List Effect × SolrIndexSchema × CAOutcome :=
  if resp.status = 200 then
    let cache' := resp.collections.foldl
      (fun c col => (_cache_solr_collection_schema_types schemaO c col).2) cache
    let effs := Effect.listCollections :: resp.collections.map Effect.httpGetSchema
    let ids := resp.collections.map (fun c => (pySplit c "_id_").getLastD "")
    if cdbs ≠ [] then
      (effs, cache', CAOutcome.results1 (cdbs.map (fun c => (c, ids.contains c))))
    else
      (effs, cache',
       CAOutcome.results2 ((ids.zip resp.collections).map (fun p => (p.1, false, p.2))))
  else
    ([Effect.listCollections], cache,
     CAOutcome.serverError "Error requesting solr concept search collection list")


/-! ## search_collection -/

/-- One row of the ConceptDB Django table, as read by
ConceptDB.objects.get(id=cdb). -/
structure CdbRec where
  id : Nat
  name : String
deriving DecidableEq, Repr

/-- The per-word fuzziness suffixes added on line 50 of the source: every word
but the last gets a fuzzy suffix, the last gets a wildcard. -/
def searchTerms : List String → List String
  | [] => []
  | [s] => [s ++ "*"]
  | s :: rest => (s ++ "~1") :: searchTerms rest

/-- The query string built for one collection from the suffixed terms and the
cached cui schema type: a numeric first term (after dropping its suffix
character) queries the cui field, a multi-word query searches names, and a
single word searches cui and name unless the cui field is numeric (plongs). -/
def queryStrFor (terms : List String) (cuiType : String) : String :=
  let t0 := terms.headD ""
  match pyInt (pyDropLast t0) with
  | some n => "cui:" ++ toString n
  | none =>
    if terms.length > 1 then
      String.join (terms.map (fun q => " name:" ++ q))
    else if cuiType ≠ "plongs" then
      "cui:" ++ pyDropLast t0 ++ " OR name:" ++ pyDropLast t0 ++ " OR name:" ++ t0
    else
      "name:" ++ pyDropLast t0 ++ " OR name:" ++ t0

/-- The cached cui schema type for a collection (present whenever the cache
was just populated for that collection). -/
def getCuiType (cache : SolrIndexSchema) (col : String) : String :=
  (((List.lookup col cache).getD []).lookup "cui").getD ""

/-- One deduplicated result entry as parsed from a solr doc on lines 81-91 of
the source: scalars are the first element of the list-valued solr fields, and
the optional classification fields are kept only when present and non-empty. -/
structure ParsedDoc where
  cui : String
  pretty_name : String
  type_ids : List String
  synonyms : List String
  icd10 : Option String
  opcs4 : Option String
deriving DecidableEq, Repr

/-- Parse one solr doc into a result entry. -/
def parseSolrDoc (d : SolrDoc) : ParsedDoc where
  cui := d.cui.headD ""
  pretty_name := d.pretty_name.headD ""
  type_ids := d.type_ids
  synonyms := d.synonyms
  icd10 := match d.icd10 with | some (x :: _) => some x | _ => none
  opcs4 := match d.opcs4 with | some (x :: _) => some x | _ => none

/-- Insert a doc into the uniq_results_map (insertion-ordered, first writer of
a cui wins). -/
def addDoc (u : List (String × ParsedDoc)) (d : SolrDoc) : List (String × ParsedDoc) :=
  if (List.lookup (d.cui.headD "") u).isSome then u
  else u ++ [(d.cui.headD "", parseSolrDoc d)]

/-- Stable insertion by pretty-name length, modelling Python's stable
sorted(..., key=len of pretty_name). -/
def insertByLen (x : ParsedDoc) : List ParsedDoc → List ParsedDoc
  | [] => [x]
  | y :: ys =>
    if y.pretty_name.length ≤ x.pretty_name.length then y :: insertByLen x ys
    else x :: y :: ys

/-- Stable sort by pretty-name length. -/
def sortByLen (l : List ParsedDoc) : List ParsedDoc :=
  l.foldl (fun acc x => insertByLen x acc) []

/-- Result of the per-cdb loop of search_collection: either the accumulated
state, or the early server-error return taken when a select response body
carries an error key.  Both carry the effects issued and the cache as left
behind. -/
inductive LoopRes
  | ok (effects : List Effect) (cache : SolrIndexSchema) (uniq : List (String × ParsedDoc))
  | err (effects : List Effect) (cache : SolrIndexSchema) (msg : String)
deriving Repr

/-- Effects issued by the loop. -/
def LoopRes.effectsOf : LoopRes → List Effect
  | .ok e _ _ => e
  | .err e _ _ => e

/-- Cache as left behind by the loop. -/
def LoopRes.cacheOf : LoopRes → SolrIndexSchema
  | .ok _ c _ => c
  | .err _ c _ => c

/-- The per-cdb loop (lines 55-91 of the source): look up the ConceptDB row,
derive the collection name, fetch-and-cache the schema only when the
collection is absent from the cache, build the query string, run the select,
and either abort with a server error (error key in the body) or fold the docs
into the uniq results map and continue. -/
def searchLoop (db : String → CdbRec) (schemaO : String → String)
    (selectO : String → SelectResp) (terms : List String) :
    List String → SolrIndexSchema → List (String × ParsedDoc) → LoopRes
  | [], cache, uniq => .ok [] cache uniq
  | cdb :: rest, cache, uniq =>
    let m := db cdb
    let col := m.name ++ "_id_" ++ toString m.id
    let fetched :=
      match List.lookup col cache with
      | some _ => ([], cache)
      | none => _cache_solr_collection_schema_types schemaO cache col
    let cache' := fetched.2
    let qs := queryStrFor terms (getCuiType cache' col)
    let resp := selectO col
    let pre := Effect.dbGet cdb :: fetched.1 ++ [Effect.httpSelect col qs]
    if resp.hasError then
      .err pre cache'
        ("Concept Search Index " ++ col ++
         " not available, import concept DB first before trying to search it.")
    else
      match searchLoop db schemaO selectO terms rest cache' (resp.docs.foldl addDoc uniq) with
      | .ok effs c u => .ok (pre ++ effs) c u
      | .err effs c msg => .err (pre ++ effs) c msg

/-- What search_collection hands back: the effect trace, the cache as left
behind, and the HTTP-level outcome. -/
structure SearchResult where
  effects : List Effect
  cache : SolrIndexSchema
  outcome : SolrOutcome (List ParsedDoc)
deriving Repr

/-- Model of search_collection: normalize and split the query, return an
empty result set at once (no HTTP call, no ORM lookup) when the stripped
query is empty, otherwise run the per-cdb loop and sort the deduplicated
results by display-name length.  With no cdbs requested the result set is
empty and nothing is contacted. -/
def search_collection (db : String → CdbRec) (schemaO : String → String)
    (selectO : String → SelectResp) (cache : SolrIndexSchema)
    (cdbs : List String) (query : String) : SearchResult :=
  let qsplit := pySplitSpace (pyReplace (pyStrip query) "\\s+" "\\s")
  if qsplit = [""] then
    { effects := [], cache := cache, outcome := .ok [] }
  else
    let terms := searchTerms qsplit
    if cdbs.length > 0 then
      match searchLoop db schemaO selectO terms cdbs cache [] with
      | .ok effs c uniq =>
        { effects := effs, cache := c, outcome := .ok (sortByLen (uniq.map Prod.snd)) }
      | .err effs c msg =>
        { effects := effs, cache := c, outcome := .serverError msg }
    else
      { effects := [], cache := cache, outcome := .ok [] }

/-! ## _solr_error_response and _upload_payload -/

/-- Model of _solr_error_response: try to read the error field out of the
response body; when the body does not parse, log a generic message and
re-raise the parse exception, otherwise log and raise an Exception carrying
the solr error.  Either way an exception is raised to the caller. -/
def _solr_error_response (resp : HttpResp) (errorMsg : String) :
    List LogEntry × SolrOutcome Unit :=
  match resp.errorBody with
  | none =>
    ([LogEntry.error (errorMsg ++ ": unknown error")],
     SolrOutcome.raised "json decode error")
  | some err =>
    ([LogEntry.error (errorMsg ++ ": solr error: " ++ err)],
     SolrOutcome.raised (errorMsg ++ ": solr error: " ++ err))

/-- Model of _upload_payload, given the response to the POST it performs: on
status 200 log success, on any other status log and raise through
_solr_error_response.  (The commit flag and payload shape the caller's
request; the effect itself is recorded by the caller's trace.) -/
def _upload_payload (resp : HttpResp) (collection : String) :
    List LogEntry × SolrOutcome Unit :=
  if resp.status = 200 then
    ([LogEntry.info ("Successfully uploaded concepts to solr collection " ++ collection)],
     SolrOutcome.ok ())
  else
    _solr_error_response resp ("error updating " ++ collection)

/-! ## import_all_concepts -/

/-- Fuel-indexed model of the upload loop on lines 119-132 of the source: pull
entries off the iterator 5000 at a time, uploading each full batch without a
commit; the batch in hand when the iterator is exhausted (possibly empty,
always shorter than 5000) is uploaded with commit=true.  The fuel is an upper
bound on the number of batches; the document count always suffices because
every non-final batch consumes 5000 documents. -/
def chunkUploadsAux : Nat → List Doc → List (List Doc × Bool)
  | 0, docs => [(docs, true)]
  | fuel + 1, docs =>
    if docs.length < 5000 then [(docs, true)]
    else (docs.take 5000, false) :: chunkUploadsAux fuel (docs.drop 5000)

/-- The batched upload plan for a document list. -/
def chunkUploads (docs : List Doc) : List (List Doc × Bool) :=
  chunkUploadsAux docs.length docs

/-- The documents import_all_concepts builds: one _concept_dct document per
entry of cdb.cui2names, in iteration order. -/
def importDocs (cdb : CDB) : List Doc :=
  cdb.cui2names.map (fun p => _concept_dct p.1 cdb)

/-- The responses import_all_concepts receives, one per HTTP call it may
make. -/
structure ImportOracle where
  listResp : ListResp
  deleteResp : HttpResp
  createResp : HttpResp
  uploadResp : Nat → HttpResp
  countFound : Nat

/-- Run the batched uploads: each batch issues one update POST; a non-200
response raises out of the loop through _upload_payload, abandoning the
remaining batches; when every batch succeeds the final row-count select of
lines 137-138 is issued. -/
def uploadLoop (col : String) (uploadResp : Nat → HttpResp) :
    List (List Doc × Bool) → Nat → List Effect × SolrOutcome Unit
  | [], _ => ([Effect.selectCount col], SolrOutcome.ok ())
  | (p, commit) :: rest, i =>
    let eff := Effect.upload col (UploadData.docs p) commit
    match _upload_payload (uploadResp i) col with
    | (_, SolrOutcome.ok _) =>
      let r := uploadLoop col uploadResp rest (i + 1)
      (eff :: r.1, r.2)
    | (_, out) => ([eff], out)

/-- Model of import_all_concepts: list the collections (raising on a non-200
status); when the derived collection name already exists issue a DELETE for it
(whose response is never inspected); CREATE the collection (raising through
_solr_error_response on a non-200 status); then upload the cui2names entries
in batches. -/
def import_all_concepts (cdb : CDB) (name : String) (id : Nat) (o : ImportOracle) :
    List Effect × SolrOutcome Unit :=
  let col := name ++ "_id_" ++ toString id
  if o.listResp.status ≠ 200 then
    ([Effect.listCollections],
     SolrOutcome.raised "Error connecting to Solr to retrieve current collection list")
  else
    let delEffs := if col ∈ o.listResp.collections then [Effect.deleteCollection col] else []
    if o.createResp.status ≠ 200 then
      (Effect.listCollections :: delEffs ++ [Effect.createCollection col],
       (_solr_error_response o.createResp "Failure creating collection").2)
    else
      let up := uploadLoop col o.uploadResp (chunkUploads (importDocs cdb)) 0
      (Effect.listCollections :: delEffs ++ [Effect.createCollection col] ++ up.1, up.2)

/-- The (payload, commit) pairs of the update POSTs appearing in a trace. -/
def uploadsOf (effs : List Effect) : List (List Doc × Bool) :=
  effs.filterMap (fun e =>
    match e with
    | Effect.upload _ (UploadData.docs p) c => some (p, c)
    | _ => none)

/-! ## drop_collection -/

/-- Model of drop_collection: one DELETE call; a 200 status is logged as
success, anything else is logged as a warning.  The function returns normally
in both cases: it never raises and never returns an error response. -/
def drop_collection (name : String) (id : Nat) (resp : HttpResp) :
    List LogEntry × SolrOutcome Unit :=
  let col := name ++ "_id_" ++ toString id
  if resp.status = 200 then
    ([LogEntry.info ("Successfullly dropped concept collection:" ++ col)], SolrOutcome.ok ())
  else
    ([LogEntry.warning ("Error dropping concept collection " ++ col ++ ", error: " ++ resp.text)],
     SolrOutcome.ok ())

/-! ## ensure_concept_searchable -/

/-- Model of ensure_concept_searchable, returning its effect trace: one LIST
call; only when that call returns a non-200 status does the function parse the
body, build the concept document and, if the collection is listed, upload that
single document with commit=true.  On a 200 status it returns with no further
action. -/
def ensure_concept_searchable (cui : String) (cdb : CDB) (m : CdbRec)
    (listResp : ListResp) : List Effect :=
  let col := m.name ++ "_id_" ++ toString m.id
  if listResp.status ≠ 200 then
    if col ∈ listResp.collections then
      [Effect.listCollections,
       Effect.upload col (UploadData.single (_concept_dct cui cdb)) true]
    else [Effect.listCollections]
  else [Effect.listCollections]

/-! ## The schema migration 0083 -/

/-- Django on_delete behaviours (only CASCADE occurs in this migration). -/
inductive OnDelete
  | CASCADE
  | PROTECT
  | SET_NULL
  | DO_NOTHING
deriving DecidableEq, Repr

/-- The field descriptions occurring in migration 0083. -/
inductive FieldDef
  | foreignKey (target : String) (null blank : Bool) (onDelete : OnDelete)
      (relatedName helpText : String)
  | booleanField (default : Bool) (helpText : String)
deriving DecidableEq, Repr

/-- A migration operation: add a new field or alter an existing one. -/
inductive MigOp
  | addField (model field : String) (f : FieldDef)
  | alterField (model field : String) (f : FieldDef)
deriving DecidableEq, Repr

/-- The model a migration operation touches. -/
def MigOp.modelName : MigOp → String
  | .addField m _ _ => m
  | .alterField m _ _ => m

/-- The field a migration operation touches. -/
def MigOp.fieldName : MigOp → String
  | .addField _ f _ => f
  | .alterField _ f _ => f

/-- The field definition a migration operation carries. -/
def MigOp.fieldDef : MigOp → FieldDef
  | .addField _ _ d => d
  | .alterField _ _ d => d

/-- Whether the operation is an AddField. -/
def MigOp.isAdd : MigOp → Bool
  | .addField _ _ _ => true
  | _ => false

/-- Whether the operation is an AlterField. -/
def MigOp.isAlter : MigOp → Bool
  | .alterField _ _ _ => true
  | _ => false

/-- The target of a foreign-key field description. -/
def FieldDef.fkTarget : FieldDef → Option String
  | .foreignKey tgt _ _ _ _ _ => some tgt
  | _ => none

/-- null= of a foreign-key field description. -/
def FieldDef.isNull : FieldDef → Bool
  | .foreignKey _ nl _ _ _ _ => nl
  | _ => false

/-- blank= of a foreign-key field description. -/
def FieldDef.isBlank : FieldDef → Bool
  | .foreignKey _ _ bl _ _ _ => bl
  | _ => false

/-- on_delete= of a foreign-key field description. -/
def FieldDef.onDeleteOf : FieldDef → Option OnDelete
  | .foreignKey _ _ _ od _ _ => some od
  | _ => none

/-- default= of a boolean field description. -/
def FieldDef.boolDefault : FieldDef → Option Bool
  | .booleanField d _ => some d
  | _ => none

/-- A Django migration: its dependencies and its operation list. -/
structure Migration where
  dependencies : List (String × String)
  operations : List MigOp
deriving DecidableEq, Repr

/-- The declarative content of migration file
0083_metaannotation_predicted_meta_task_value_and_more.py. -/
def migration0083 : Migration where
  dependencies := [("api", "0082_remove_metacatmodel_meta_task_and_more")]
  operations :=
    [MigOp.addField "metaannotation" "predicted_meta_task_value"
      (FieldDef.foreignKey "api.metataskvalue" true true OnDelete.CASCADE
        "predicted_value" "meta annotation predicted by a MetaAnnotationModel"),
     MigOp.alterField "metaannotation" "validated"
      (FieldDef.booleanField false "If an annotation is not ")]

/-! ## Concrete fixtures used by counterexamples and witnesses -/

/-- A tiny concrete CDB with two concepts, one carrying a well-formed icd10
entry. -/
def cdbTwo : CDB where
  cui2names := [("101", ["heart failure"]), ("202", ["asthma"])]
  cui2type_ids := fun c => if c == "101" then ["T047"] else ["T048"]
  get_name := fun c => if c == "101" then "Heart failure (disorder)" else "Asthma"
  cui2description := fun c => if c == "101" then some "a description" else none
  cui2original_names := fun c => if c == "101" then some ["HF", "heart failure"] else none
  cui2icd10 := fun c => if c == "101" then some [⟨some "I50", some "Heart failure"⟩] else none
  cui2opcs4 := fun _ => none

/-- Concrete ConceptDB table: every id resolves to the same row. -/
def dbOne : String → CdbRec := fun _ => { id := 1, name := "snomed" }

/-- Concrete schema oracle: every collection's cui field has type plongs. -/
def schemaPlongs : String → String := fun _ => "plongs"

/-- Concrete select oracle whose response has HTTP status 200 but carries an
error key in its json body. -/
def selectErr200 : String → SelectResp := fun _ => { status := 200, hasError := true, docs := [] }

/-- Concrete select oracle returning one plain doc with status 200. -/
def selectOkOne : String → SelectResp := fun _ =>
  { status := 200, hasError := false,
    docs := [{ cui := ["101"], pretty_name := ["Heart failure"], type_ids := ["T047"],
               synonyms := ["HF"], icd10 := none, opcs4 := none }] }

/-- An all-success import oracle: the target collection is absent from the
listing and every call returns status 200. -/
def oracleOk : ImportOracle where
  listResp := { status := 200, collections := ["other_id_9"] }
  deleteResp := { status := 200, text := "", errorBody := none }
  createResp := { status := 200, text := "", errorBody := none }
  uploadResp := fun _ => { status := 200, text := "", errorBody := none }
  countFound := 2

/-- An import oracle whose listing already contains the target collection
snomed_id_1. -/
def oracleExisting : ImportOracle where
  listResp := { status := 200, collections := ["snomed_id_1", "other_id_9"] }
  deleteResp := { status := 200, text := "", errorBody := none }
  createResp := { status := 200, text := "", errorBody := none }
  uploadResp := fun _ => { status := 200, text := "", errorBody := none }
  countFound := 2

/-! # Theorems -/

/-! ## Claim C2 -/

/-- C2, counterexample to the name clause: for the display name
"Heart (organ) failure" the parenthesized group is not a suffix, so the
claim's normalization leaves the name unchanged, while the code deletes the
medial group and produces "Heart  failure". -/
theorem solrC2_counterexample :
    cdbMid.get_name "C1" = "Heart (organ) failure"
    ∧ List.lookup "name" (_concept_dct "C1" cdbMid) = some (DocVal.s "Heart  failure")
    ∧ specSuffixName "Heart (organ) failure" = "Heart (organ) failure"
    ∧ DocVal.s "Heart  failure" ≠ DocVal.s "Heart (organ) failure" := by
  decide

/-- C2 as amended: for every cui of the concept dictionary, _concept_dct
returns a document with exactly the fields cui, pretty_name, name (the display
name with every parenthesized run of word characters, plus signs and
whitespace removed, wherever it occurs, then stripped of surrounding
whitespace), type_ids, desc (defaulting to the empty string), synonyms
(defaulting to the empty list), plus icd10/opcs4 exactly when the
corresponding addl_info entry exists and is a list of records each carrying a
code and a name.  The concept dictionary is not modified (the embedding is
pure, mirroring that the source only reads cdb). -/
theorem solrC2_amended (cdb : CDB) (cui : String)
    (_hmem : cui ∈ cdb.cui2names.map Prod.fst) :
    (_concept_dct cui cdb).map Prod.fst =
      ["cui", "pretty_name", "name", "type_ids", "desc", "synonyms"]
        ++ (if ((cdb.cui2icd10 cui).bind joinCodes).isSome then ["icd10"] else [])
        ++ (if ((cdb.cui2opcs4 cui).bind joinCodes).isSome then ["opcs4"] else [])
    ∧ List.lookup "cui" (_concept_dct cui cdb) = some (DocVal.s cui)
    ∧ List.lookup "pretty_name" (_concept_dct cui cdb) = some (DocVal.s (cdb.get_name cui))
    ∧ List.lookup "name" (_concept_dct cui cdb)
        = some (DocVal.s (normalized_name (cdb.get_name cui)))
    ∧ List.lookup "type_ids" (_concept_dct cui cdb) = some (DocVal.l (cdb.cui2type_ids cui))
    ∧ List.lookup "desc" (_concept_dct cui cdb)
        = some (DocVal.s ((cdb.cui2description cui).getD ""))
    ∧ List.lookup "synonyms" (_concept_dct cui cdb)
        = some (DocVal.l ((cdb.cui2original_names cui).getD []))
    ∧ List.lookup "icd10" (_concept_dct cui cdb)
        = ((cdb.cui2icd10 cui).bind joinCodes).map DocVal.s
    ∧ List.lookup "opcs4" (_concept_dct cui cdb)
        = ((cdb.cui2opcs4 cui).bind joinCodes).map DocVal.s := by
  rcases h1 : cdb.cui2icd10 cui with _ | codes1 <;>
    rcases h2 : cdb.cui2opcs4 cui with _ | codes2
  · simp [_concept_dct, h1, h2, List.lookup]
  · rcases h4 : joinCodes codes2 with _ | s2 <;>
      simp [_concept_dct, h1, h2, h4, List.lookup]
  · rcases h3 : joinCodes codes1 with _ | s1 <;>
      simp [_concept_dct, h1, h2, h3, List.lookup]
  · rcases h3 : joinCodes codes1 with _ | s1 <;>
      rcases h4 : joinCodes codes2 with _ | s2 <;>
      simp [_concept_dct, h1, h2, h3, h4, List.lookup]

/-- C2 witness: the amended theorem applied to the concrete dictionary cdbTwo
at cui 101, whose hypotheses hold by evaluation. -/
theorem solrC2_amended_witness :
    ("101" ∈ cdbTwo.cui2names.map Prod.fst)
    ∧ List.lookup "cui" (_concept_dct "101" cdbTwo) = some (DocVal.s "101")
    ∧ List.lookup "icd10" (_concept_dct "101" cdbTwo)
        = ((cdbTwo.cui2icd10 "101").bind joinCodes).map DocVal.s :=
  ⟨by decide, (solrC2_amended cdbTwo "101" (by decide)).2.1,
   (solrC2_amended cdbTwo "101" (by decide)).2.2.2.2.2.2.2.1⟩

/-! ## Claim C8 -/

/-- C8: migration 0083 performs exactly two operations, both on the
metaannotation model: it adds the nullable, blank foreign key
predicted_meta_task_value to api.metataskvalue with cascade deletion, and it
alters validated to a boolean field with default False; no other model or
field is touched. -/
theorem migC8 :
    migration0083.operations.length = 2
    ∧ migration0083.operations.all (fun op => op.modelName == "metaannotation") = true
    ∧ migration0083.operations.map MigOp.fieldName
        = ["predicted_meta_task_value", "validated"]
    ∧ (migration0083.operations.headD
        (MigOp.alterField "" "" (FieldDef.booleanField false ""))).isAdd = true
    ∧ ((migration0083.operations.headD
        (MigOp.alterField "" "" (FieldDef.booleanField false ""))).fieldDef).fkTarget
        = some "api.metataskvalue"
    ∧ ((migration0083.operations.headD
        (MigOp.alterField "" "" (FieldDef.booleanField false ""))).fieldDef).isNull = true
    ∧ ((migration0083.operations.headD
        (MigOp.alterField "" "" (FieldDef.booleanField false ""))).fieldDef).isBlank = true
    ∧ ((migration0083.operations.headD
        (MigOp.alterField "" "" (FieldDef.booleanField false ""))).fieldDef).onDeleteOf
        = some OnDelete.CASCADE
    ∧ ((migration0083.operations.getLastD
        (MigOp.addField "" "" (FieldDef.booleanField true ""))).isAlter) = true
    ∧ ((migration0083.operations.getLastD
        (MigOp.addField "" "" (FieldDef.booleanField true ""))).fieldDef).boolDefault
        = some false := by
  decide

/-! ## Claim C4 -/

/-- C4: ensure_concept_searchable uploads the concept document only on the
branch where the collection-list request returns a non-200 status; on a 200
status it returns having issued nothing beyond the LIST call, so a successful
LIST call never results in the concept being uploaded. -/
theorem solrC4 (cui : String) (cdb : CDB) (m : CdbRec) (listResp : ListResp) :
    (listResp.status = 200 →
      ensure_concept_searchable cui cdb m listResp = [Effect.listCollections])
    ∧ (listResp.status ≠ 200 →
        (m.name ++ "_id_" ++ toString m.id) ∈ listResp.collections →
        ensure_concept_searchable cui cdb m listResp
          = [Effect.listCollections,
             Effect.upload (m.name ++ "_id_" ++ toString m.id)
               (UploadData.single (_concept_dct cui cdb)) true])
    ∧ (∀ col d cm,
        Effect.upload col d cm ∈ ensure_concept_searchable cui cdb m listResp →
        listResp.status ≠ 200) := by
  refine ⟨fun h => by simp [ensure_concept_searchable, h],
          fun h hm => by simp [ensure_concept_searchable, h, hm],
          fun col d cm hmem => ?_⟩
  intro h200
  rw [(by simp [ensure_concept_searchable, h200] :
        ensure_concept_searchable cui cdb m listResp = [Effect.listCollections])] at hmem
  simp at hmem

/-- C4 witness: with a 200 LIST response the trace is the bare LIST call even
though the collection is listed; with a 500 response the same listing receives
the upload. -/
theorem solrC4_witness :
    ensure_concept_searchable "101" cdbTwo { id := 1, name := "snomed" }
        { status := 200, collections := ["snomed_id_1"] }
      = [Effect.listCollections]
    ∧ ensure_concept_searchable "101" cdbTwo { id := 1, name := "snomed" }
        { status := 500, collections := ["snomed_id_1"] }
      = [Effect.listCollections,
         Effect.upload "snomed_id_1" (UploadData.single (_concept_dct "101" cdbTwo)) true] :=
  ⟨(solrC4 "101" cdbTwo { id := 1, name := "snomed" }
      { status := 200, collections := ["snomed_id_1"] }).1 rfl,
   (solrC4 "101" cdbTwo { id := 1, name := "snomed" }
      { status := 500, collections := ["snomed_id_1"] }).2.1 (by decide) (by decide)⟩

/-! ## Claim C5 -/

/-- Stripping a string whose characters are all whitespace yields the empty
string. -/
theorem pyStrip_eq_empty {s : String} (h : ∀ c ∈ s.data, isPySpace c = true) :
    pyStrip s = "" := by
  unfold pyStrip
  have hd : s.data.dropWhile isPySpace = [] := List.dropWhile_eq_nil_iff.mpr h
  rw [hd]
  rfl

/-- C5: on a query that is empty or all whitespace, search_collection answers
with an empty results list immediately: no HTTP request, no ORM lookup, and an
untouched cache, for every cdb list and every environment. -/
theorem solrC5 (db : String → CdbRec) (schemaO : String → String)
    (selectO : String → SelectResp) (cache : SolrIndexSchema)
    (cdbs : List String) (query : String)
    (h : ∀ c ∈ query.data, isPySpace c = true) :
    search_collection db schemaO selectO cache cdbs query
      = { effects := [], cache := cache, outcome := SolrOutcome.ok [] } := by
  have hq : pyStrip query = "" := pyStrip_eq_empty h
  have h2 : pySplitSpace (pyReplace (pyStrip query) "\\s+" "\\s") = [""] := by
    rw [hq]
    rfl
  simp [search_collection, h2]

/-- C5 witness: the theorem applied to the whitespace query at a concrete
environment, with every hypothesis evaluated. -/
theorem solrC5_witness :
    (∀ c ∈ (" \t ").data, isPySpace c = true)
    ∧ search_collection dbOne schemaPlongs selectOkOne [] ["1"] " \t "
        = { effects := [], cache := [], outcome := SolrOutcome.ok [] } :=
  ⟨by decide, solrC5 dbOne schemaPlongs selectOkOne [] ["1"] " \t " (by decide)⟩

/-! ## Claim C7 -/

/-- C7: whenever the LIST request returns a non-200 status,
collections_available returns the generic server error and the schema cache is
returned unchanged, with no further request; only on a 200 status does it
build the per-cdb results mapping (the membership map when cdb ids were
supplied, the listing map otherwise). -/
theorem solrC7 (schemaO : String → String) (cache : SolrIndexSchema)
    (cdbs : List String) (resp : ListResp) :
    (resp.status ≠ 200 →
      collections_available schemaO cache cdbs resp
        = ([Effect.listCollections], cache,
           CAOutcome.serverError "Error requesting solr concept search collection list"))
    ∧ (resp.status = 200 → cdbs ≠ [] →
        (collections_available schemaO cache cdbs resp).2.2
          = CAOutcome.results1 (cdbs.map (fun c =>
              (c, (resp.collections.map
                    (fun x => (pySplit x "_id_").getLastD "")).contains c))))
    ∧ (resp.status = 200 → cdbs = [] →
        (collections_available schemaO cache cdbs resp).2.2
          = CAOutcome.results2
              (((resp.collections.map (fun x => (pySplit x "_id_").getLastD "")).zip
                  resp.collections).map (fun p => (p.1, false, p.2)))) := by
  refine ⟨fun h => by simp [collections_available, h],
          fun h hne => by simp [collections_available, h, hne],
          fun h he => by simp [collections_available, h, he]⟩

/-- C7 witness: the theorem applied to a failed LIST call and to a successful
one against the same concrete environment. -/
theorem solrC7_witness :
    collections_available schemaPlongs [] ["1"] { status := 503, collections := [] }
      = ([Effect.listCollections], [],
         CAOutcome.serverError "Error requesting solr concept search collection list")
    ∧ (collections_available schemaPlongs [] ["1"]
        { status := 200, collections := ["snomed_id_1"] }).2.2
      = CAOutcome.results1 [("1", true)] :=
  ⟨(solrC7 schemaPlongs [] ["1"] { status := 503, collections := [] }).1 (by decide),
   by
     have := (solrC7 schemaPlongs [] ["1"]
       { status := 200, collections := ["snomed_id_1"] }).2.1 rfl (by decide)
     rw [this]
     decide⟩

/-! ## Cache lemmas -/

theorem cacheSchemaTypes_fst (schemaO : String → String) (cache : SolrIndexSchema)
    (col : String) :
    (_cache_solr_collection_schema_types schemaO cache col).1
      = [Effect.httpGetSchema col] := rfl

theorem cacheSchemaTypes_snd (schemaO : String → String) (cache : SolrIndexSchema)
    (col : String) :
    (_cache_solr_collection_schema_types schemaO cache col).2
      = cacheStore cache col [("cui", schemaO col)] := rfl

/-- Looking up the key just stored finds the new value. -/
theorem lookup_cacheStore_self (c : SolrIndexSchema) (k : String)
    (v : List (String × String)) :
    List.lookup k (cacheStore c k v) = some v := by
  induction c with
  | nil => simp [cacheStore, List.lookup_cons]
  | cons hd tl ih =>
    obtain ⟨k', v'⟩ := hd
    by_cases h : k' = k
    · simp [cacheStore, h, List.lookup_cons]
    · simp [cacheStore, h, List.lookup_cons, beq_false_of_ne (Ne.symm h), ih]

/-- Storing one key leaves every other key's lookup unchanged. -/
theorem lookup_cacheStore_ne (c : SolrIndexSchema) (k k' : String)
    (v : List (String × String)) (h : k' ≠ k) :
    List.lookup k' (cacheStore c k v) = List.lookup k' c := by
  induction c with
  | nil => simp [cacheStore, List.lookup_cons, beq_false_of_ne h]
  | cons hd tl ih =>
    obtain ⟨k0, v0⟩ := hd
    by_cases h0 : k0 = k
    · subst h0
      simp [cacheStore, List.lookup_cons, beq_false_of_ne h]
    · by_cases h1 : k0 = k'
      · subst h1
        simp [cacheStore, h0, List.lookup_cons]
      · simp [cacheStore, h0, List.lookup_cons, beq_false_of_ne (Ne.symm h1), ih]

/-- Invariant of the per-cdb loop of search_collection: a collection already
cached keeps its exact entry and is never re-fetched over HTTP, and a cache
entry can change only to a fresh singleton cui-type dict. -/
theorem searchLoop_cache_inv (db : String → CdbRec) (schemaO : String → String)
    (selectO : String → SelectResp) (terms : List String) :
    ∀ (cdbs : List String) (cache : SolrIndexSchema)
      (uniq : List (String × ParsedDoc)) (k : String),
      ((List.lookup k cache).isSome →
        List.lookup k (searchLoop db schemaO selectO terms cdbs cache uniq).cacheOf
          = List.lookup k cache
        ∧ Effect.httpGetSchema k
            ∉ (searchLoop db schemaO selectO terms cdbs cache uniq).effectsOf)
      ∧ (List.lookup k (searchLoop db schemaO selectO terms cdbs cache uniq).cacheOf
           ≠ List.lookup k cache →
          ∃ t, List.lookup k (searchLoop db schemaO selectO terms cdbs cache uniq).cacheOf
            = some [("cui", t)]) := by
  intro cdbs
  induction cdbs with
  | nil =>
    intro cache uniq k
    exact ⟨fun _ => ⟨rfl, by simp [searchLoop, LoopRes.effectsOf]⟩,
           fun hne => absurd rfl hne⟩
  | cons cdb rest ih =>
    intro cache uniq k
    simp only [searchLoop]
    rcases hfind : List.lookup ((db cdb).name ++ "_id_" ++ toString (db cdb).id) cache
      with _ | v
    · -- collection absent from the cache: the schema is fetched and stored
      simp only [cacheSchemaTypes_fst, cacheSchemaTypes_snd]
      by_cases herr :
        (selectO ((db cdb).name ++ "_id_" ++ toString (db cdb).id)).hasError
      · simp only [herr, if_true, LoopRes.cacheOf, LoopRes.effectsOf]
        constructor
        · intro hs
          have hkc : k ≠ (db cdb).name ++ "_id_" ++ toString (db cdb).id := by
            intro he
            rw [he, hfind] at hs
            simp at hs
          refine ⟨lookup_cacheStore_ne _ _ _ _ hkc, ?_⟩
          simp [hkc]
        · intro hne
          by_cases hkc : k = (db cdb).name ++ "_id_" ++ toString (db cdb).id
          · subst hkc
            exact ⟨_, lookup_cacheStore_self _ _ _⟩
          · exact absurd (lookup_cacheStore_ne _ _ _ _ hkc) hne
      · simp only [herr, if_false, Bool.false_eq_true]
        rcases hres : searchLoop db schemaO selectO terms rest
            (cacheStore cache ((db cdb).name ++ "_id_" ++ toString (db cdb).id)
              [("cui", schemaO ((db cdb).name ++ "_id_" ++ toString (db cdb).id))])
            ((selectO ((db cdb).name ++ "_id_" ++ toString (db cdb).id)).docs.foldl
              addDoc uniq)
          with ⟨effs, c, u⟩ | ⟨effs, c, msg⟩
        all_goals {
          have ihr := ih
            (cacheStore cache ((db cdb).name ++ "_id_" ++ toString (db cdb).id)
              [("cui", schemaO ((db cdb).name ++ "_id_" ++ toString (db cdb).id))])
            ((selectO ((db cdb).name ++ "_id_" ++ toString (db cdb).id)).docs.foldl
              addDoc uniq) k
          rw [hres] at ihr
          simp only [LoopRes.cacheOf, LoopRes.effectsOf] at ihr
          simp only [hres, LoopRes.cacheOf, LoopRes.effectsOf]
          constructor
          · intro hs
            have hkc : k ≠ (db cdb).name ++ "_id_" ++ toString (db cdb).id := by
              intro he
              rw [he, hfind] at hs
              simp at hs
            have hs1 : (List.lookup k
                (cacheStore cache ((db cdb).name ++ "_id_" ++ toString (db cdb).id)
                  [("cui", schemaO ((db cdb).name ++ "_id_" ++ toString (db cdb).id))])).isSome := by
              rw [lookup_cacheStore_ne _ _ _ _ hkc]
              exact hs
            obtain ⟨heq, hnm⟩ := ihr.1 hs1
            refine ⟨heq.trans (lookup_cacheStore_ne _ _ _ _ hkc), ?_⟩
            simp [hkc, hnm]
          · intro hne
            by_cases hch : List.lookup k c
                = List.lookup k
                    (cacheStore cache ((db cdb).name ++ "_id_" ++ toString (db cdb).id)
                      [("cui", schemaO ((db cdb).name ++ "_id_" ++ toString (db cdb).id))])
            · by_cases hkc : k = (db cdb).name ++ "_id_" ++ toString (db cdb).id
              · subst hkc
                rw [hch, lookup_cacheStore_self]
                exact ⟨_, rfl⟩
              · rw [hch, lookup_cacheStore_ne _ _ _ _ hkc] at hne
                exact absurd rfl hne
            · exact ihr.2 hch
        }
    · -- collection already cached: no fetch, cache body reused
      by_cases herr :
        (selectO ((db cdb).name ++ "_id_" ++ toString (db cdb).id)).hasError
      · simp only [herr, if_true, LoopRes.cacheOf, LoopRes.effectsOf]
        constructor
        · intro _
          exact ⟨by simp, by simp⟩
        · intro hne
          simp at hne
      · simp only [herr, if_false, Bool.false_eq_true]
        rcases hres : searchLoop db schemaO selectO terms rest cache
            ((selectO ((db cdb).name ++ "_id_" ++ toString (db cdb).id)).docs.foldl
              addDoc uniq)
          with ⟨effs, c, u⟩ | ⟨effs, c, msg⟩
        all_goals {
          have ihr := ih cache
            ((selectO ((db cdb).name ++ "_id_" ++ toString (db cdb).id)).docs.foldl
              addDoc uniq) k
          rw [hres] at ihr
          simp only [LoopRes.cacheOf, LoopRes.effectsOf] at ihr
          simp only [hres, LoopRes.cacheOf, LoopRes.effectsOf]
          exact ⟨fun hs => ⟨(ihr.1 hs).1, by simp [(ihr.1 hs).2]⟩, ihr.2⟩
        }

/-- The cache facts of the loop lifted over every branch of
search_collection. -/
theorem search_collection_cache_inv (db : String → CdbRec) (schemaO : String → String)
    (selectO : String → SelectResp) (cache : SolrIndexSchema)
    (cdbs : List String) (query : String) (k : String) :
    ((List.lookup k cache).isSome →
      List.lookup k (search_collection db schemaO selectO cache cdbs query).cache
        = List.lookup k cache
      ∧ Effect.httpGetSchema k
          ∉ (search_collection db schemaO selectO cache cdbs query).effects)
    ∧ (List.lookup k (search_collection db schemaO selectO cache cdbs query).cache
         ≠ List.lookup k cache →
        ∃ t, List.lookup k (search_collection db schemaO selectO cache cdbs query).cache
          = some [("cui", t)]) := by
  unfold search_collection
  by_cases hq : pySplitSpace (pyReplace (pyStrip query) "\\s+" "\\s") = [""]
  · simp only [hq, if_true]
    constructor
    · intro _
      exact ⟨by simp, by simp⟩
    · intro hne
      simp at hne
  · simp only [hq, if_false]
    by_cases hc : cdbs.length > 0
    · simp only [hc, if_true]
      have hinv := searchLoop_cache_inv db schemaO selectO
        (searchTerms (pySplitSpace (pyReplace (pyStrip query) "\\s+" "\\s")))
        cdbs cache [] k
      rcases hres : searchLoop db schemaO selectO
          (searchTerms (pySplitSpace (pyReplace (pyStrip query) "\\s+" "\\s")))
          cdbs cache []
        with ⟨effs, c, u⟩ | ⟨effs, c, msg⟩ <;>
      · rw [hres] at hinv
        simp only [LoopRes.cacheOf, LoopRes.effectsOf] at hinv
        simpa using hinv
    · simp only [hc, if_false]
      constructor
      · intro _
        exact ⟨by simp, by simp⟩
      · intro hne
        simp at hne

/-- Folding the schema fetch-and-store over a collection list either leaves a
key's entry alone or rewrites it to a fresh singleton cui-type dict. -/
theorem lookup_foldl_cache (schemaO : String → String) (cols : List String) :
    ∀ (cache : SolrIndexSchema) (k : String),
      List.lookup k (cols.foldl
          (fun c col => (_cache_solr_collection_schema_types schemaO c col).2) cache)
        = List.lookup k cache
      ∨ ∃ t, List.lookup k (cols.foldl
          (fun c col => (_cache_solr_collection_schema_types schemaO c col).2) cache)
        = some [("cui", t)] := by
  induction cols with
  | nil => intro cache k; exact Or.inl rfl
  | cons col rest ih =>
    intro cache k
    rw [List.foldl_cons]
    rcases ih ((_cache_solr_collection_schema_types schemaO cache col).2) k with h | h
    · rw [h, cacheSchemaTypes_snd]
      by_cases hk : k = col
      · subst hk
        exact Or.inr ⟨_, lookup_cacheStore_self _ _ _⟩
      · exact Or.inl (lookup_cacheStore_ne _ _ _ _ hk)
    · exact Or.inr h

/-! ## Claim C6 -/

/-- C6: the SOLR_INDEX_SCHEMA cache is only ever grown or refreshed with
entries of the singleton shape cui-to-type, never invalidated: for
search_collection a cached collection keeps its exact entry and its schema is
never re-fetched over HTTP (lazy population), and any entry that changes
becomes a singleton cui-type dict; collections_available never loses a key and
changes entries only to that shape; and the store primitive itself writes
exactly that shape, leaving all other keys alone.  (drop_collection,
the import and the ensure_concept_searchable functions never touch the cache:
their models neither receive nor return it.) -/
theorem solrC6 (db : String → CdbRec) (schemaO : String → String)
    (selectO : String → SelectResp) (cache : SolrIndexSchema)
    (cdbs : List String) (query : String) (k : String) :
    ((List.lookup k cache).isSome →
      List.lookup k (search_collection db schemaO selectO cache cdbs query).cache
        = List.lookup k cache
      ∧ Effect.httpGetSchema k
          ∉ (search_collection db schemaO selectO cache cdbs query).effects)
    ∧ (List.lookup k (search_collection db schemaO selectO cache cdbs query).cache
         ≠ List.lookup k cache →
        ∃ t, List.lookup k (search_collection db schemaO selectO cache cdbs query).cache
          = some [("cui", t)])
    ∧ (∀ (resp : ListResp) (cdbs2 : List String),
        ((List.lookup k cache).isSome →
          (List.lookup k (collections_available schemaO cache cdbs2 resp).2.1).isSome)
        ∧ (List.lookup k (collections_available schemaO cache cdbs2 resp).2.1
             ≠ List.lookup k cache →
            ∃ t, List.lookup k (collections_available schemaO cache cdbs2 resp).2.1
              = some [("cui", t)]))
    ∧ (∀ col : String,
        List.lookup col (_cache_solr_collection_schema_types schemaO cache col).2
          = some [("cui", schemaO col)]
        ∧ ∀ k2, k2 ≠ col →
            List.lookup k2 (_cache_solr_collection_schema_types schemaO cache col).2
              = List.lookup k2 cache) := by
  refine ⟨(search_collection_cache_inv db schemaO selectO cache cdbs query k).1,
          (search_collection_cache_inv db schemaO selectO cache cdbs query k).2,
          fun resp cdbs2 => ?_,
          fun col => ⟨?_, fun k2 hk2 => ?_⟩⟩
  · have hca : (collections_available schemaO cache cdbs2 resp).2.1 = cache
        ∨ (collections_available schemaO cache cdbs2 resp).2.1
          = resp.collections.foldl
              (fun c col => (_cache_solr_collection_schema_types schemaO c col).2) cache := by
      unfold collections_available
      by_cases hs : resp.status = 200
      · by_cases hne : cdbs2 ≠ [] <;> simp [hs, hne]
      · simp [hs]
    rcases hca with hca | hca
    · rw [hca]
      exact ⟨fun hs => hs, fun hne => absurd rfl hne⟩
    · rw [hca]
      rcases lookup_foldl_cache schemaO resp.collections cache k with h | h
      · rw [h]
        exact ⟨fun hs => hs, fun hne => absurd rfl hne⟩
      · obtain ⟨t, ht⟩ := h
        rw [ht]
        exact ⟨fun _ => rfl, fun _ => ⟨t, rfl⟩⟩
  · rw [cacheSchemaTypes_snd]
    exact lookup_cacheStore_self _ _ _
  · rw [cacheSchemaTypes_snd]
    exact lookup_cacheStore_ne _ _ _ _ hk2

/-- C6 witness: concrete instantiation with a pre-populated cache entry: a
search over the cached collection preserves the entry, issues no schema fetch
for it, and the store primitive writes the singleton shape. -/
theorem solrC6_witness :
    (List.lookup "snomed_id_1" [("snomed_id_1", [("cui", "plongs")])]).isSome = true
    ∧ (List.lookup "snomed_id_1"
        (search_collection dbOne schemaPlongs selectOkOne
          [("snomed_id_1", [("cui", "plongs")])] ["7"] "heart").cache
        = List.lookup "snomed_id_1" [("snomed_id_1", [("cui", "plongs")])]
      ∧ Effect.httpGetSchema "snomed_id_1"
          ∉ (search_collection dbOne schemaPlongs selectOkOne
              [("snomed_id_1", [("cui", "plongs")])] ["7"] "heart").effects)
    ∧ List.lookup "c" (_cache_solr_collection_schema_types schemaPlongs [] "c").2
        = some [("cui", "plongs")] :=
  ⟨by decide,
   (solrC6 dbOne schemaPlongs selectOkOne [("snomed_id_1", [("cui", "plongs")])]
      ["7"] "heart" "snomed_id_1").1 (by decide),
   ((solrC6 dbOne schemaPlongs selectOkOne [("snomed_id_1", [("cui", "plongs")])]
      ["7"] "heart" "snomed_id_1").2.2.2 "c").1⟩

/-! ## Batch upload lemmas for import_all_concepts -/

/-- The batch plan is never empty: even an empty document list produces one
final (empty, committing) upload. -/
theorem chunkUploadsAux_ne_nil (fuel : Nat) (docs : List Doc) :
    chunkUploadsAux fuel docs ≠ [] := by
  cases fuel with
  | zero => simp [chunkUploadsAux]
  | succ fuel =>
    by_cases hlen : docs.length < 5000 <;> simp [chunkUploadsAux, hlen]

/-- Concatenating the payloads of the batch plan restores the document
list. -/
theorem chunkUploadsAux_flatten : ∀ (fuel : Nat) (docs : List Doc),
    docs.length ≤ fuel →
    ((chunkUploadsAux fuel docs).map Prod.fst).flatten = docs := by
  intro fuel
  induction fuel with
  | zero =>
    intro docs h
    have hd : docs = [] := List.eq_nil_of_length_eq_zero (Nat.le_zero.mp h)
    subst hd
    rfl
  | succ fuel ih =>
    intro docs h
    by_cases hlen : docs.length < 5000
    · simp [chunkUploadsAux, hlen]
    · have h5 : 5000 ≤ docs.length := Nat.le_of_not_lt hlen
      have hdrop : (docs.drop 5000).length ≤ fuel := by
        rw [List.length_drop]
        omega
      simp only [chunkUploadsAux]
      rw [if_neg hlen, List.map_cons, List.flatten_cons, ih (docs.drop 5000) hdrop]
      exact List.take_append_drop 5000 docs

/-- Every batch except the last carries exactly 5000 documents and no commit
flag. -/
theorem chunkUploadsAux_dropLast : ∀ (fuel : Nat) (docs : List Doc),
    docs.length ≤ fuel →
    ∀ c ∈ (chunkUploadsAux fuel docs).dropLast, c.1.length = 5000 ∧ c.2 = false := by
  intro fuel
  induction fuel with
  | zero =>
    intro docs h c hc
    have hd : docs = [] := List.eq_nil_of_length_eq_zero (Nat.le_zero.mp h)
    subst hd
    simp [chunkUploadsAux] at hc
  | succ fuel ih =>
    intro docs h c hc
    by_cases hlen : docs.length < 5000
    · simp [chunkUploadsAux, hlen] at hc
    · have h5 : 5000 ≤ docs.length := Nat.le_of_not_lt hlen
      simp only [chunkUploadsAux] at hc
      rw [if_neg hlen,
          List.dropLast_cons_of_ne_nil (chunkUploadsAux_ne_nil _ _)] at hc
      rcases List.mem_cons.mp hc with hc | hc
      · subst hc
        refine ⟨?_, rfl⟩
        rw [List.length_take]
        omega
      · exact ih (docs.drop 5000)
          (by rw [List.length_drop]; omega) c hc

/-- getLastD does not depend on the default on a nonempty list. -/
theorem getLastD_irrel {α : Type} (l : List α) (h : l ≠ []) (a b : α) :
    l.getLastD a = l.getLastD b := by
  rw [List.getLastD_eq_getLast?, List.getLastD_eq_getLast?]
  rcases hl : l.getLast? with _ | x
  · exact absurd (List.getLast?_eq_none_iff.mp hl) h
  · rfl

/-- The final batch carries the commit flag and the remainder of the division
by 5000 (in particular fewer than 5000 documents). -/
theorem chunkUploadsAux_getLast : ∀ (fuel : Nat) (docs : List Doc),
    docs.length ≤ fuel →
    ((chunkUploadsAux fuel docs).getLastD ([], false)).2 = true
    ∧ ((chunkUploadsAux fuel docs).getLastD ([], false)).1.length
        = docs.length % 5000 := by
  intro fuel
  induction fuel with
  | zero =>
    intro docs h
    have hd : docs = [] := List.eq_nil_of_length_eq_zero (Nat.le_zero.mp h)
    subst hd
    exact ⟨rfl, rfl⟩
  | succ fuel ih =>
    intro docs h
    by_cases hlen : docs.length < 5000
    · refine ⟨by simp [chunkUploadsAux, hlen, List.getLastD], ?_⟩
      simp only [chunkUploadsAux]
      rw [if_pos hlen]
      exact (Nat.mod_eq_of_lt hlen).symm
    · have h5 : 5000 ≤ docs.length := Nat.le_of_not_lt hlen
      have hdrop : (docs.drop 5000).length ≤ fuel := by
        rw [List.length_drop]
        omega
      obtain ⟨ih1, ih2⟩ := ih (docs.drop 5000) hdrop
      simp only [chunkUploadsAux]
      rw [if_neg hlen, List.getLastD_cons,
          getLastD_irrel _ (chunkUploadsAux_ne_nil _ _) _ ([], false)]
      refine ⟨ih1, ?_⟩
      rw [ih2, List.length_drop]
      exact (Nat.mod_eq_sub_mod h5).symm

/-- Over the naturals, a zero sum forces every element to zero. -/
theorem nat_sum_zero_all_zero : ∀ (l : List Nat), l.sum = 0 → ∀ x ∈ l, x = 0 := by
  intro l
  induction l with
  | nil =>
    intro _ x hx
    simp at hx
  | cons a t ih =>
    intro h x hx
    rw [List.sum_cons] at h
    rcases List.mem_cons.mp hx with rfl | hx
    · omega
    · exact ih (by omega) x hx

/-- A list of naturals summing to one has exactly one positive element. -/
theorem countP_pos_of_sum_eq_one : ∀ (l : List Nat), l.sum = 1 →
    l.countP (fun n => decide (0 < n)) = 1 := by
  intro l
  induction l with
  | nil =>
    intro h
    simp at h
  | cons a t ih =>
    intro h
    rw [List.sum_cons] at h
    rcases Nat.eq_zero_or_pos a with ha | ha
    · subst ha
      have h1 : t.sum = 1 := by omega
      simp [List.countP_cons, ih h1]
    · have ht : t.sum = 0 := by omega
      have hz : t.countP (fun n => decide (0 < n)) = 0 := by
        rw [List.countP_eq_zero]
        intro x hx
        simp [nat_sum_zero_all_zero t ht x hx]
      simp [List.countP_cons, hz, ha]

/-- Distinct cuis give distinct concept documents: the document's first field
is the cui itself. -/
theorem concept_dct_injective (cdb : CDB) :
    Function.Injective (fun cui => _concept_dct cui cdb) := by
  intro a b hab
  have hab' : _concept_dct a cdb = _concept_dct b cdb := hab
  have h1 : ((_concept_dct a cdb).headD ("", DocVal.s ""))
      = ((_concept_dct b cdb).headD ("", DocVal.s "")) := by
    rw [hab']
  simpa [_concept_dct] using h1

/-- With every update POST answered 200, the upload loop issues exactly one
update per planned batch, in order, then the final row-count select, and
returns normally. -/
theorem uploadLoop_all_ok (col : String) (uResp : Nat → HttpResp)
    (h : ∀ i, (uResp i).status = 200) :
    ∀ (chunks : List (List Doc × Bool)) (i : Nat),
      uploadLoop col uResp chunks i
        = (chunks.map (fun c => Effect.upload col (UploadData.docs c.1) c.2)
            ++ [Effect.selectCount col], SolrOutcome.ok ()) := by
  intro chunks
  induction chunks with
  | nil => intro i; rfl
  | cons c rest ih =>
    intro i
    obtain ⟨p, commit⟩ := c
    simp only [uploadLoop, _upload_payload, h i, if_true]
    rw [ih (i + 1)]
    simp

/-- A trace of update POSTs built from a batch list, followed by any tail with
no uploads in it, projects back to exactly that batch list. -/
theorem uploadsOf_append_map (col : String) (tail : List Effect)
    (htail : uploadsOf tail = []) :
    ∀ chunks : List (List Doc × Bool),
      uploadsOf (chunks.map (fun c => Effect.upload col (UploadData.docs c.1) c.2) ++ tail)
        = chunks := by
  intro chunks
  induction chunks with
  | nil => simpa using htail
  | cons c rest ih =>
    obtain ⟨p, commit⟩ := c
    simp only [uploadsOf, List.filterMap_cons, List.map_cons, List.cons_append] at ih ⊢
    rw [ih]

/-- In a duplicate-free list, a member occurs exactly once (stated over any
lawful BEq so it applies at the document type's ambient instance). -/
theorem count_eq_one_of_nodup_mem {α : Type} [BEq α] [LawfulBEq α] {a : α} :
    ∀ {l : List α}, l.Nodup → a ∈ l → l.count a = 1 := by
  intro l
  induction l with
  | nil =>
    intro _ hmem
    simp at hmem
  | cons b t ih =>
    intro hnd hmem
    obtain ⟨hbt, hndt⟩ := List.nodup_cons.mp hnd
    rw [List.count_cons]
    rcases List.mem_cons.mp hmem with rfl | hmem2
    · rw [List.count_eq_zero.mpr hbt]
      simp
    · have hne : a ≠ b := fun he => hbt (he ▸ hmem2)
      have hne' : ¬b = a := fun he => hne he.symm
      rw [ih hndt hmem2]
      simp [beq_false_of_ne hne, hne']

/-! ## Claim C3 -/

/-- C3: import_all_concepts converts every cui2names entry with _concept_dct
and uploads the documents in batches of 5000: every batch but the last has
exactly 5000 documents and no commit parameter, the final (possibly smaller,
its size the remainder modulo 5000) batch carries commit=true, concatenating
the uploaded payloads restores the whole converted document list, and with
distinct cui keys every concept document lands in exactly one uploaded
payload (sent once, no retries). -/
theorem solrC3 (cdb : CDB) (name : String) (id : Nat) (o : ImportOracle)
    (hlist : o.listResp.status = 200) (hcreate : o.createResp.status = 200)
    (hup : ∀ i, (o.uploadResp i).status = 200)
    (hkeys : (cdb.cui2names.map Prod.fst).Nodup) :
    uploadsOf (import_all_concepts cdb name id o).1 = chunkUploads (importDocs cdb)
    ∧ ((chunkUploads (importDocs cdb)).map Prod.fst).flatten = importDocs cdb
    ∧ (∀ c ∈ (chunkUploads (importDocs cdb)).dropLast,
        c.1.length = 5000 ∧ c.2 = false)
    ∧ ((chunkUploads (importDocs cdb)).getLastD ([], false)).2 = true
    ∧ ((chunkUploads (importDocs cdb)).getLastD ([], false)).1.length
        = (importDocs cdb).length % 5000
    ∧ ∀ cui ∈ cdb.cui2names.map Prod.fst,
        (chunkUploads (importDocs cdb)).countP
          (fun ch => decide (_concept_dct cui cdb ∈ ch.1)) = 1 := by
  refine ⟨?_, chunkUploadsAux_flatten _ _ le_rfl,
          chunkUploadsAux_dropLast _ _ le_rfl,
          (chunkUploadsAux_getLast _ _ le_rfl).1,
          (chunkUploadsAux_getLast _ _ le_rfl).2, ?_⟩
  · by_cases hmem : (name ++ "_id_" ++ toString id) ∈ o.listResp.collections <;>
    · simp only [import_all_concepts, hlist, hcreate, hmem,
        uploadLoop_all_ok _ _ hup]
      simp only [ne_eq, not_true_eq_false, if_false, ite_true, ite_false,
        reduceIte, List.cons_append]
      simp [uploadsOf, List.filterMap_cons, List.filterMap_append]
      generalize chunkUploads (importDocs cdb) = chs
      induction chs with
      | nil => rfl
      | cons c rest ih =>
        simp [List.filterMap_cons, ih]
  · intro cui hcui
    have hdocs : importDocs cdb
        = (cdb.cui2names.map Prod.fst).map (fun c => _concept_dct c cdb) := by
      rw [importDocs, List.map_map]
      rfl
    have hnd : (importDocs cdb).Nodup := by
      rw [hdocs]
      exact List.Nodup.map (concept_dct_injective cdb) hkeys
    have hmemd : _concept_dct cui cdb ∈ importDocs cdb := by
      rw [hdocs]
      exact List.mem_map_of_mem _ hcui
    have hcount : (importDocs cdb).count (_concept_dct cui cdb) = 1 :=
      count_eq_one_of_nodup_mem hnd hmemd
    have hflat := chunkUploadsAux_flatten (importDocs cdb).length (importDocs cdb) le_rfl
    have hsum : ((chunkUploadsAux (importDocs cdb).length (importDocs cdb)).map
        (fun ch => ch.1.count (_concept_dct cui cdb))).sum = 1 := by
      have hcf := List.count_flatten (_concept_dct cui cdb)
        ((chunkUploadsAux (importDocs cdb).length (importDocs cdb)).map Prod.fst)
      rw [hflat, List.map_map, hcount] at hcf
      exact hcf.symm
    have hcp := countP_pos_of_sum_eq_one _ hsum
    rw [List.countP_map] at hcp
    rw [show chunkUploads (importDocs cdb)
          = chunkUploadsAux (importDocs cdb).length (importDocs cdb) from rfl,
        ← hcp]
    apply List.countP_congr
    intro ch _
    simp [List.count_pos_iff]

/-- C3 witness: the theorem applied to the two-concept dictionary and the
all-success oracle; since the dictionary is small the whole plan is the single
committing batch. -/
theorem solrC3_witness :
    (cdbTwo.cui2names.map Prod.fst).Nodup
    ∧ uploadsOf (import_all_concepts cdbTwo "snomed" 1 oracleOk).1
        = chunkUploads (importDocs cdbTwo)
    ∧ chunkUploads (importDocs cdbTwo) = [(importDocs cdbTwo, true)] :=
  ⟨by decide,
   (solrC3 cdbTwo "snomed" 1 oracleOk rfl rfl (fun _ => rfl) (by decide)).1,
   by decide⟩

/-! ## Claim C9 -/

/-- The upload loop issues only update POSTs and the final count select,
never a collection DELETE. -/
theorem uploadLoop_no_delete (col c : String) (uResp : Nat → HttpResp) :
    ∀ (chunks : List (List Doc × Bool)) (i : Nat),
      Effect.deleteCollection c ∉ (uploadLoop col uResp chunks i).1 := by
  intro chunks
  induction chunks with
  | nil =>
    intro i
    simp [uploadLoop]
  | cons ch rest ih =>
    intro i
    obtain ⟨p, commit⟩ := ch
    simp only [uploadLoop]
    rcases hu : _upload_payload (uResp i) col with ⟨logs, out⟩
    cases out with
    | ok a => simp [ih (i + 1)]
    | serverError m => simp
    | raised m => simp

/-- C9: import_all_concepts first lists the collections and, exactly when the
derived name name_id_id already appears in the listing, issues a DELETE for it
before the CREATE; when the name is absent no DELETE is ever issued, so a
successful import replaces any previous contents of that collection. -/
theorem solrC9 (cdb : CDB) (name : String) (id : Nat) (o : ImportOracle)
    (hlist : o.listResp.status = 200) :
    ((name ++ "_id_" ++ toString id) ∈ o.listResp.collections →
      (import_all_concepts cdb name id o).1.take 3
        = [Effect.listCollections,
           Effect.deleteCollection (name ++ "_id_" ++ toString id),
           Effect.createCollection (name ++ "_id_" ++ toString id)])
    ∧ ((name ++ "_id_" ++ toString id) ∉ o.listResp.collections →
        Effect.deleteCollection (name ++ "_id_" ++ toString id)
          ∉ (import_all_concepts cdb name id o).1) := by
  constructor
  · intro hmem
    simp only [import_all_concepts]
    rw [if_neg (by simp [hlist])]
    simp only [hmem, if_true, reduceIte]
    by_cases hcr : o.createResp.status ≠ 200
    · rw [if_pos hcr]
      rfl
    · rw [if_neg hcr]
      rfl
  · intro hmem
    simp only [import_all_concepts]
    rw [if_neg (by simp [hlist])]
    simp only [hmem, if_false, reduceIte]
    by_cases hcr : o.createResp.status ≠ 200
    · rw [if_pos hcr]
      simp
    · rw [if_neg hcr]
      have hnd := uploadLoop_no_delete (name ++ "_id_" ++ toString id)
        (name ++ "_id_" ++ toString id) o.uploadResp
        (chunkUploads (importDocs cdb)) 0
      simp [hnd]

/-- C9 witness: with the collection already listed the first three requests
are LIST, DELETE, CREATE; with it absent no DELETE appears anywhere in the
trace. -/
theorem solrC9_witness :
    (import_all_concepts cdbTwo "snomed" 1 oracleExisting).1.take 3
      = [Effect.listCollections, Effect.deleteCollection "snomed_id_1",
         Effect.createCollection "snomed_id_1"]
    ∧ Effect.deleteCollection "snomed_id_1"
        ∉ (import_all_concepts cdbTwo "snomed" 1 oracleOk).1 :=
  ⟨(solrC9 cdbTwo "snomed" 1 oracleExisting rfl).1 (by decide),
   (solrC9 cdbTwo "snomed" 1 oracleOk rfl).2 (by decide)⟩

/-! ## Claim C1 -/

/-- _solr_error_response always raises: the outcome is surfaced whichever way
the body parses. -/
theorem solr_error_response_surfaced (r : HttpResp) (msg : String) :
    ((_solr_error_response r msg).2).surfaced = true := by
  rcases h : r.errorBody with _ | e <;>
    simp [_solr_error_response, h, SolrOutcome.surfaced]

/-- C1, counterexample: drop_collection detects the failed DELETE (status 500,
not 200) yet only logs a warning and returns normally, surfacing nothing; and
search_collection surfaces a server error from a select whose HTTP status is
200, detecting the failure from the error key of the body rather than from a
non-200 status. -/
theorem solrC1_counterexample :
    (500 ≠ 200)
    ∧ ((drop_collection "snomed" 1
          { status := 500, text := "err", errorBody := none }).2).surfaced = false
    ∧ (drop_collection "snomed" 1
          { status := 500, text := "err", errorBody := none }).1
        = [LogEntry.warning "Error dropping concept collection snomed_id_1, error: err"]
    ∧ (selectErr200 "snomed_id_1").status = 200
    ∧ ((search_collection dbOne schemaPlongs selectErr200 [] ["1"] "foo").outcome).surfaced
        = true := by
  decide

/-- C1 as amended: error handling is not uniform across solr_utils.
collections_available surfaces a non-200 LIST as a generic server error;
the import raises on a non-200 LIST and, through _solr_error_response, on a
non-200 CREATE; _upload_payload raises on a
non-200 update POST; but drop_collection returns normally whatever the
status, merely logging a warning on a non-200 DELETE; and search_collection
detects select failure solely from an error key in the response body,
independent of the status code. -/
theorem solrC1_amended :
    (∀ (schemaO : String → String) (cache : SolrIndexSchema) (cdbs : List String)
        (resp : ListResp), resp.status ≠ 200 →
      (collections_available schemaO cache cdbs resp).2.2
        = CAOutcome.serverError "Error requesting solr concept search collection list")
    ∧ (∀ (cdb : CDB) (name : String) (id : Nat) (o : ImportOracle),
        o.listResp.status ≠ 200 →
        (import_all_concepts cdb name id o).2
          = SolrOutcome.raised
              "Error connecting to Solr to retrieve current collection list")
    ∧ (∀ (cdb : CDB) (name : String) (id : Nat) (o : ImportOracle),
        o.listResp.status = 200 → o.createResp.status ≠ 200 →
        (import_all_concepts cdb name id o).2
          = (_solr_error_response o.createResp "Failure creating collection").2
        ∧ ((import_all_concepts cdb name id o).2).surfaced = true)
    ∧ (∀ (r : HttpResp) (col : String), r.status ≠ 200 →
        (_upload_payload r col).2
          = (_solr_error_response r ("error updating " ++ col)).2
        ∧ ((_upload_payload r col).2).surfaced = true)
    ∧ (∀ (name : String) (id : Nat) (r : HttpResp),
        (drop_collection name id r).2 = SolrOutcome.ok ()
        ∧ (r.status ≠ 200 →
            (drop_collection name id r).1
              = [LogEntry.warning ("Error dropping concept collection "
                  ++ (name ++ "_id_" ++ toString id) ++ ", error: " ++ r.text)]))
    ∧ (∀ (db : String → CdbRec) (schemaO : String → String)
        (selectO : String → SelectResp) (cache : SolrIndexSchema) (c : String),
        (selectO ((db c).name ++ "_id_" ++ toString (db c).id)).hasError = true →
        (search_collection db schemaO selectO cache [c] "foo").outcome
          = SolrOutcome.serverError
              ("Concept Search Index " ++ ((db c).name ++ "_id_" ++ toString (db c).id)
                ++ " not available, import concept DB first before trying to search it.")) := by
  refine ⟨?_, ?_, ?_, ?_, ?_, ?_⟩
  · intro schemaO cache cdbs resp h
    simp [collections_available, h]
  · intro cdb name id o h
    simp [import_all_concepts, h]
  · intro cdb name id o hl hcr
    have h3 : (import_all_concepts cdb name id o).2
        = (_solr_error_response o.createResp "Failure creating collection").2 := by
      simp only [import_all_concepts]
      rw [if_neg (by simp [hl]), if_pos hcr]
    exact ⟨h3, by rw [h3]; exact solr_error_response_surfaced _ _⟩
  · intro r col h
    have h4 : (_upload_payload r col).2
        = (_solr_error_response r ("error updating " ++ col)).2 := by
      simp only [_upload_payload]
      rw [if_neg h]
    exact ⟨h4, by rw [h4]; exact solr_error_response_surfaced _ _⟩
  · intro name id r
    constructor
    · by_cases h : r.status = 200 <;> simp [drop_collection, h]
    · intro h
      simp [drop_collection, h]
  · intro db schemaO selectO cache c herr
    have hsplit : pySplitSpace (pyReplace (pyStrip "foo") "\\s+" "\\s") = ["foo"] := rfl
    simp only [search_collection, hsplit]
    rw [if_neg (by decide), if_pos (by simp)]
    simp only [searchLoop]
    rcases hl : List.lookup ((db c).name ++ "_id_" ++ toString (db c).id) cache
      with _ | v <;>
      simp [hl, herr]

/-- C1 witness: the amended behaviours at concrete inputs: a failed LIST
yields the server error, a failed DELETE still returns normally, and a
200-status select with an error body yields the search server error. -/
theorem solrC1_amended_witness :
    (collections_available schemaPlongs [] [] { status := 500, collections := [] }).2.2
      = CAOutcome.serverError "Error requesting solr concept search collection list"
    ∧ (drop_collection "snomed" 1 { status := 404, text := "gone", errorBody := none }).2
        = SolrOutcome.ok ()
    ∧ (search_collection dbOne schemaPlongs selectErr200 [] ["1"] "foo").outcome
        = SolrOutcome.serverError
            "Concept Search Index snomed_id_1 not available, import concept DB first before trying to search it." :=
  ⟨solrC1_amended.1 schemaPlongs [] [] { status := 500, collections := [] } (by decide),
   (solrC1_amended.2.2.2.2.1 "snomed" 1
      { status := 404, text := "gone", errorBody := none }).1,
   solrC1_amended.2.2.2.2.2 dbOne schemaPlongs selectErr200 [] "1" rfl⟩
